import Mathlib

/-!
Verification of the motion-resolution pipeline of a two-link pen-plotter arm.

The development shallowly embeds the algorithmic core of the repository:

* `get_angles` — bilinear grid lookup (`src/kinematics_interpolator.py`,
  `GridInterpolator.get_angles`), over `ℚ` (exact rational arithmetic in
  place of floats; every operation used by the source is rational).
* `send_compensated_angle` — 1-D calibration lookup
  (`src/calibrate_angles.py`).
* `convert_board_coordinates` — normalized-to-board coordinate mapping
  (`src/main.clean.py`).
* `solve_kinematics` — the inverse-kinematics solver (`src/ik.py`), over
  `ℝ`, with Python failure modes (`return None`, `ZeroDivisionError`,
  `ValueError` from `acos`/`asin` domain violations) made explicit.
* `limiter_step` — the velocity-limiting trajectory step
  (`src/main.clean.py`, body of `main`).
* `solve_kinematics_original` / `solve_kinematics_fixed` — the historical
  single-argument `asin` base-angle computation and its two-argument
  `atan2` replacement (`repro_kinematics.py`).

Python `dict`s of float keys are embedded as association lists with exact
rational keys; a failed `d[k]` lookup (a `KeyError`) and arithmetic errors
are surfaced as explicit result constructors.
-/

namespace PenPlotter

/-- Result of a Python function call that may `return None`, raise
`ZeroDivisionError`, or raise an uncaught `ValueError` (from a domain
violation in `math.acos` / `math.asin`). -/
inductive PyResult (α : Type) where
  | retNone : PyResult α
  | ok : α → PyResult α
  | zeroDivisionError : PyResult α
  | valueError : PyResult α
  deriving DecidableEq

/-- Association-list lookup, embedding a Python `dict` indexing `d[k]` /
membership test `k in d` over exact rational keys. -/
def findEntry {α : Type} (data : List ((ℚ × ℚ) × α)) (k : ℚ × ℚ) : Option α :=
  match data with
  | [] => none
  | (k', v) :: rest => if k = k' then some v else findEntry rest k

/-- Embedding of `GridInterpolator.get_angles`
(`src/kinematics_interpolator.py`): bilinear interpolation over a grid of
calibration points keyed by `(x, y)`, cell corners located by flooring the
coordinates to multiples of `grid_size`.  Returns `none` when the loaded
mapping is empty or when any of the four corners of the containing cell is
absent. -/
def get_angles (grid_size : ℚ) (data : List ((ℚ × ℚ) × (ℚ × ℚ)))
    (x y : ℚ) : Option (ℚ × ℚ) :=
  if data = [] then none
  else
    let x0 : ℚ := (⌊x / grid_size⌋ : ℤ) * grid_size
    let y0 : ℚ := (⌊y / grid_size⌋ : ℤ) * grid_size
    let x1 : ℚ := x0 + grid_size
    let y1 : ℚ := y0 + grid_size
    match findEntry data (x0, y0), findEntry data (x1, y0),
          findEntry data (x0, y1), findEntry data (x1, y1) with
    | some q00, some q10, some q01, some q11 =>
      let u : ℚ := (x - x0) / grid_size
      let v : ℚ := (y - y0) / grid_size
      some ((1-u)*(1-v)*q00.1 + u*(1-v)*q10.1 + (1-u)*v*q01.1 + u*v*q11.1,
            (1-u)*(1-v)*q00.2 + u*(1-v)*q10.2 + (1-u)*v*q01.2 + u*v*q11.2)
    | _, _, _, _ => none

/-- The four-point example grid of `src/test_interpolation.py` and the
specification's concrete scenario: corners `(0,0) ↦ (10,10)`,
`(5,0) ↦ (20,10)`, `(0,5) ↦ (10,20)`, `(5,5) ↦ (20,20)`. -/
def specGrid : List ((ℚ × ℚ) × (ℚ × ℚ)) :=
  [((0, 0), (10, 10)), ((5, 0), (20, 10)), ((0, 5), (10, 20)), ((5, 5), (20, 20))]

/-- Association-list lookup with scalar keys, embedding a Python `dict`
keyed by a single float. -/
def findKey (table : List (ℚ × ℚ)) (k : ℚ) : Option ℚ :=
  match table with
  | [] => none
  | (k', v) :: rest => if k = k' then some v else findKey rest k

/-- Embedding of `send_compensated_angle` (`src/calibrate_angles.py`).
The Python body is transcribed literally: on a table miss it computes
`x0 = angle // 10 + 10` (float floor-division, then adds ten), `x1 = x0 + 10`,
indexes `table[x0]` and `table[x1]` (each a possible `KeyError`), and returns
`y0 + (angle - x0) / (x1 - x0) * (y1 - y0)`.  A `KeyError` is surfaced as
`none`. -/
def send_compensated_angle (table : List (ℚ × ℚ)) (angle : ℚ) : Option ℚ :=
  match findKey table angle with
  | some v => some v
  | none =>
    let x0 : ℚ := (⌊angle / 10⌋ : ℤ) + 10
    let x1 : ℚ := x0 + 10
    match findKey table x0 with
    | none => none
    | some y0 =>
      match findKey table x1 with
      | none => none
      | some y1 => some (y0 + (angle - x0) / (x1 - x0) * (y1 - y0))

/-- Calibration table with nominal-angle keys `20, 30, …, 180` (the fixed
10-unit sampling written by `calibrate()` in `src/calibrate_angles.py`,
`range(20, 181, 10)`), here with identity measured values. -/
def calibTable : List (ℚ × ℚ) :=
  (List.range 17).map (fun i => ((20 + 10 * i : ℚ), (20 + 10 * i : ℚ)))

/-- Paper width constant `PAPER_WIDTH` of `src/main.clean.py`. -/
def PAPER_WIDTH : ℚ := 2794 / 10

/-- Paper height constant `PAPER_HEIGHT` of `src/main.clean.py`. -/
def PAPER_HEIGHT : ℚ := 215

/-- Horizontal offset constant `X_OFFSET` of `src/main.clean.py`. -/
def X_OFFSET : ℚ := 0

/-- Vertical offset constant `Y_OFFSET` of `src/main.clean.py`. -/
def Y_OFFSET : ℚ := 0

/-- The fixed vertical base offset (the literal `50.0` added to `board_y`
in `convert_board_coordinates` of `src/main.clean.py`). -/
def Y_BASE_OFFSET : ℚ := 50

/-- Embedding of `convert_board_coordinates` (`src/main.clean.py`):
clamps the normalized inputs to `[0,1]`, then maps to board coordinates. -/
def convert_board_coordinates (x y : ℚ) : ℚ × ℚ :=
  let xc : ℚ := max 0 (min 1 x)
  let yc : ℚ := max 0 (min 1 y)
  (xc * PAPER_WIDTH - PAPER_WIDTH / 2, yc * PAPER_HEIGHT + 50)

noncomputable section

/-- Embedding of `math.degrees`: radians-to-degrees conversion. -/
def degrees (r : ℝ) : ℝ := r * (180 / Real.pi)

/-- Embedding of `math.radians`: degrees-to-radians conversion (used to feed
the solver's degree output back into forward kinematics). -/
def radians (d : ℝ) : ℝ := d * (Real.pi / 180)

/-- Embedding of `math.atan2`: `atan2 y x` is the polar angle of the point
`(x, y)`, realised as the principal argument of the complex number
`x + y·i`. -/
def atan2 (y x : ℝ) : ℝ := Complex.arg ⟨x, y⟩

/-- The anchor-to-target distance `AC = sqrt(x*x + y*y)` computed by
`solve_kinematics` (`src/ik.py`), with `x, y` the displacement of the target
from the origin (anchor). -/
def anchor_dist (target_x target_y origin_x origin_y : ℝ) : ℝ :=
  Real.sqrt ((target_x - origin_x) * (target_x - origin_x) +
             (target_y - origin_y) * (target_y - origin_y))

/-- Embedding of `solve_kinematics` (`src/ik.py`), over exact reals.
Python's failure modes are explicit: the out-of-reach test returns `None`
(`retNone`); a division whose denominator is zero raises
`ZeroDivisionError`; `math.acos` applied to an argument of magnitude
greater than one raises `ValueError`.  The code performs no clamping of the
`acos` arguments. -/
def solve_kinematics (target_x target_y origin_x origin_y
    shoulder_length elbow_length : ℝ) : PyResult (ℝ × ℝ) :=
  let x := target_x - origin_x
  let y := target_y - origin_y
  let L1 := shoulder_length
  let L2 := elbow_length
  let AC := anchor_dist target_x target_y origin_x origin_y
  if AC > L1 + L2 ∨ AC < |L1 - L2| then .retNone
  else
    let angle_CAX := atan2 y x
    if 2 * L1 * AC = 0 then .zeroDivisionError
    else if |(L1 ^ 2 + AC ^ 2 - L2 ^ 2) / (2 * L1 * AC)| > 1 then .valueError
    else
      let angle_BAC := Real.arccos ((L1 ^ 2 + AC ^ 2 - L2 ^ 2) / (2 * L1 * AC))
      let alpha := angle_CAX - angle_BAC
      if 2 * L1 * L2 = 0 then .zeroDivisionError
      else if |(L1 ^ 2 + L2 ^ 2 - AC ^ 2) / (2 * L1 * L2)| > 1 then .valueError
      else
        let beta := Real.arccos ((L1 ^ 2 + L2 ^ 2 - AC ^ 2) / (2 * L1 * L2))
        .ok (degrees alpha, degrees beta)

/-- Forward kinematics of the two-link arm, per the specification's
round-trip law: the elbow is placed at angle `alpha` along link `L1` from
the anchor `(origin_x, origin_y)`, and the pen at elbow bend `beta`
(interior elbow angle, so a direction change of `π - beta`) along link
`L2`.  Angles are taken in degrees, as returned by the solver. -/
def fwd_kinematics (origin_x origin_y L1 L2 alpha_deg beta_deg : ℝ) : ℝ × ℝ :=
  let a := radians alpha_deg
  let b := radians beta_deg
  (origin_x + L1 * Real.cos a + L2 * Real.cos (a + Real.pi - b),
   origin_y + L1 * Real.sin a + L2 * Real.sin (a + Real.pi - b))

/-- Euclidean distance between two points of the board plane. -/
def planar_dist (px py qx qy : ℝ) : ℝ :=
  Real.sqrt ((px - qx) ^ 2 + (py - qy) ^ 2)

/-- Embedding of the velocity-limiting trajectory step of `main`
(`src/main.clean.py`): the difference vector to the target, its magnitude,
the zero-magnitude guard, the step length `min(velocity_limit, dist)`, and
the updated interpolated position. -/
def limiter_step (interp_x interp_y board_x board_y velocity_limit : ℝ) :
    ℝ × ℝ :=
  let diff_x := board_x - interp_x
  let diff_y := board_y - interp_y
  let dist := Real.sqrt (diff_x ^ 2 + diff_y ^ 2)
  let dir : ℝ × ℝ := if dist = 0 then (0, 0) else (diff_x / dist, diff_y / dist)
  let step := min velocity_limit dist
  (interp_x + dir.1 * step, interp_y + dir.2 * step)

/-- Embedding of `solve_kinematics_original` (`repro_kinematics.py`): the
historical base-angle computation using a single-argument `asin` over one
displacement component.  The `try/except ValueError` around `math.asin`
returns `None` on a domain violation; the division by `AC` raises an
uncaught `ZeroDivisionError` when `AC = 0`. -/
def solve_kinematics_original (target_x target_y : ℝ) : PyResult ℝ :=
  let x := target_x - 0
  let y := target_y - 0
  let AC := Real.sqrt ((x - -50) ^ 2 + (y - 139.7) ^ 2)
  if AC = 0 then .zeroDivisionError
  else if |(x + 50) / AC| > 1 then .retNone
  else .ok (degrees (Real.arcsin ((x + 50) / AC)))

/-- Embedding of `solve_kinematics_fixed` (`repro_kinematics.py`): the
corrected base-angle computation using the two-argument `atan2` over the
full displacement pair. -/
def solve_kinematics_fixed (target_x target_y : ℝ) : ℝ :=
  let x := target_x - 0
  let y := target_y - 0
  degrees (atan2 (x + 50) (139.7 - y))

end

/-!  Helper lemmas shared by the claim theorems. -/

/-- Both `acos` arguments of the solver lie in `[-1, 1]` whenever the
anchor distance `d` lies in the closed annulus `|L1-L2| ≤ d ≤ L1+L2` with
`0 < d` and positive link lengths. -/
lemma acos_arg_bounds (L1 L2 d : ℝ) (hL1 : 0 < L1) (hL2 : 0 < L2)
    (hlo : |L1 - L2| ≤ d) (hhi : d ≤ L1 + L2) (hpos : 0 < d) :
    |(L1 ^ 2 + d ^ 2 - L2 ^ 2) / (2 * L1 * d)| ≤ 1 ∧
    |(L1 ^ 2 + L2 ^ 2 - d ^ 2) / (2 * L1 * L2)| ≤ 1 := by
  obtain ⟨hneg, hposs⟩ := abs_le.mp hlo
  have hd1 : L1 - L2 ≤ d := hposs
  have hd2 : L2 - L1 ≤ d := by linarith
  constructor
  · rw [abs_div, abs_of_pos (by positivity : (0:ℝ) < 2 * L1 * d), div_le_one (by positivity)]
    rw [abs_le]
    constructor <;> nlinarith
  · rw [abs_div, abs_of_pos (by positivity : (0:ℝ) < 2 * L1 * L2), div_le_one (by positivity)]
    rw [abs_le]
    have hsq : (L1 - L2) ^ 2 ≤ d ^ 2 := by
      nlinarith [sq_abs (L1 - L2), abs_nonneg (L1 - L2)]
    constructor <;> nlinarith

/-- In the closed annulus with strictly positive anchor distance, the solver
takes none of its failure branches and returns the pair of degree angles
computed from `atan2` and the two `arccos` expressions. -/
lemma solve_kinematics_ok (tx ty ox oy L1 L2 : ℝ)
    (hL1 : 0 < L1) (hL2 : 0 < L2)
    (hlo : |L1 - L2| ≤ anchor_dist tx ty ox oy)
    (hhi : anchor_dist tx ty ox oy ≤ L1 + L2)
    (hpos : 0 < anchor_dist tx ty ox oy) :
    solve_kinematics tx ty ox oy L1 L2 =
      .ok (degrees (atan2 (ty - oy) (tx - ox) -
             Real.arccos ((L1 ^ 2 + (anchor_dist tx ty ox oy) ^ 2 - L2 ^ 2) /
               (2 * L1 * anchor_dist tx ty ox oy))),
           degrees (Real.arccos ((L1 ^ 2 + L2 ^ 2 - (anchor_dist tx ty ox oy) ^ 2) /
               (2 * L1 * L2)))) := by
  obtain ⟨hb1, hb2⟩ := acos_arg_bounds L1 L2 (anchor_dist tx ty ox oy) hL1 hL2 hlo hhi hpos
  simp only [solve_kinematics]
  rw [if_neg (by push_neg; exact ⟨hhi, hlo⟩)]
  rw [if_neg (by positivity : ¬(2 * L1 * anchor_dist tx ty ox oy = 0))]
  rw [if_neg (not_lt.mpr hb1)]
  rw [if_neg (by positivity : ¬(2 * L1 * L2 = 0))]
  rw [if_neg (not_lt.mpr hb2)]

/-- Converting degrees back to radians is the identity on the solver's
radian angles. -/
lemma radians_degrees (r : ℝ) : radians (degrees r) = r := by
  rw [radians, degrees]
  field_simp

/-- Forward kinematics applied to the angles produced by the solver
reproduces the target exactly (law-of-cosines round trip, in exact real
arithmetic). -/
lemma fwd_round_trip (tx ty ox oy L1 L2 : ℝ)
    (hL1 : 0 < L1) (hL2 : 0 < L2)
    (hlo : |L1 - L2| ≤ anchor_dist tx ty ox oy)
    (hhi : anchor_dist tx ty ox oy ≤ L1 + L2)
    (hpos : 0 < anchor_dist tx ty ox oy) :
    fwd_kinematics ox oy L1 L2
      (degrees (atan2 (ty - oy) (tx - ox) -
         Real.arccos ((L1 ^ 2 + (anchor_dist tx ty ox oy) ^ 2 - L2 ^ 2) /
           (2 * L1 * anchor_dist tx ty ox oy))))
      (degrees (Real.arccos ((L1 ^ 2 + L2 ^ 2 - (anchor_dist tx ty ox oy) ^ 2) /
           (2 * L1 * L2)))) = (tx, ty) := by
  obtain ⟨hb1, hb2⟩ := acos_arg_bounds L1 L2 (anchor_dist tx ty ox oy) hL1 hL2 hlo hhi hpos
  set d := anchor_dist tx ty ox oy with hd
  have hdne : d ≠ 0 := ne_of_gt hpos
  obtain ⟨hb1l, hb1r⟩ := abs_le.mp hb1
  obtain ⟨hb2l, hb2r⟩ := abs_le.mp hb2
  set cA := (L1 ^ 2 + d ^ 2 - L2 ^ 2) / (2 * L1 * d) with hcA
  set cB := (L1 ^ 2 + L2 ^ 2 - d ^ 2) / (2 * L1 * L2) with hcB
  set A := Real.arccos cA with hA
  set B := Real.arccos cB with hB
  set θ := atan2 (ty - oy) (tx - ox) with hθ
  have hcosA : Real.cos A = cA := Real.cos_arccos hb1l hb1r
  have hcosB : Real.cos B = cB := Real.cos_arccos hb2l hb2r
  have hsinA : Real.sin A = Real.sqrt (1 - cA ^ 2) := Real.sin_arccos cA
  have hsinB : Real.sin B = Real.sqrt (1 - cB ^ 2) := Real.sin_arccos cB
  have h1cA : 0 ≤ 1 - cA ^ 2 := by nlinarith [sq_abs cA, abs_nonneg cA]
  have h1cB : 0 ≤ 1 - cB ^ 2 := by nlinarith [sq_abs cB, abs_nonneg cB]
  have hsA2 : Real.sqrt (1 - cA ^ 2) ^ 2 = 1 - cA ^ 2 := Real.sq_sqrt h1cA
  have hsum : d * cA + L2 * cB = L1 := by
    rw [hcA, hcB]
    field_simp
    ring
  have hrad : L2 ^ 2 * (1 - cB ^ 2) = d ^ 2 * (1 - cA ^ 2) := by
    rw [hcA, hcB]
    field_simp
    ring
  have hsin : L2 * Real.sqrt (1 - cB ^ 2) = d * Real.sqrt (1 - cA ^ 2) := by
    rw [show L2 * Real.sqrt (1 - cB ^ 2) = Real.sqrt (L2 ^ 2 * (1 - cB ^ 2)) from by
          rw [Real.sqrt_mul (sq_nonneg L2), Real.sqrt_sq hL2.le],
        show d * Real.sqrt (1 - cA ^ 2) = Real.sqrt (d ^ 2 * (1 - cA ^ 2)) from by
          rw [Real.sqrt_mul (sq_nonneg d), Real.sqrt_sq hpos.le],
        hrad]
  have hE1 : L1 * cA - L2 * (cA * cB - Real.sqrt (1 - cA ^ 2) * Real.sqrt (1 - cB ^ 2)) = d := by
    linear_combination (-cA) * hsum + Real.sqrt (1 - cA ^ 2) * hsin + d * hsA2
  have hE2 : L1 * Real.sqrt (1 - cA ^ 2) -
      L2 * (Real.sqrt (1 - cA ^ 2) * cB + cA * Real.sqrt (1 - cB ^ 2)) = 0 := by
    linear_combination (-(Real.sqrt (1 - cA ^ 2))) * hsum + (-cA) * hsin
  have habs : Complex.abs ⟨tx - ox, ty - oy⟩ = d := by
    rw [Complex.abs_apply, Complex.normSq_mk, hd, anchor_dist]
  have hzne : (⟨tx - ox, ty - oy⟩ : ℂ) ≠ 0 := by
    intro h0
    rw [h0, map_zero] at habs
    exact hdne habs.symm
  have hcosθ : Real.cos θ = (tx - ox) / d := by
    rw [hθ, atan2, Complex.cos_arg hzne, habs]
  have hsinθ : Real.sin θ = (ty - oy) / d := by
    rw [hθ, atan2, Complex.sin_arg, habs]
  simp only [fwd_kinematics, radians_degrees]
  simp only [Real.cos_add, Real.cos_sub, Real.sin_add, Real.sin_sub, Real.cos_pi, Real.sin_pi]
  rw [hcosθ, hsinθ, hcosA, hcosB, hsinA, hsinB]
  simp only [Prod.mk.injEq]
  constructor
  · field_simp
    linear_combination (tx - ox) * hE1 + (ty - oy) * hE2
  · field_simp
    linear_combination (ty - oy) * hE1 - (tx - ox) * hE2

/-!  Claim theorems. -/

/-- Claim C1 (counterexample to the claim as stated): with `L1 = L2 = 155`
and the target at the anchor, the anchor distance `AC = 0` lies in the
closed annulus `|L1-L2| ≤ AC ≤ L1+L2`, yet `solve_kinematics` raises
`ZeroDivisionError` (dividing by `2·L1·AC = 0`) instead of returning a
joint-angle pair. -/
theorem C1_roundtrip_counterexample :
    |(155:ℝ) - 155| ≤ anchor_dist 0 0 0 0 ∧ anchor_dist 0 0 0 0 ≤ 155 + 155 ∧
    solve_kinematics 0 0 0 0 155 155 = PyResult.zeroDivisionError := by
  have h0 : anchor_dist (0:ℝ) 0 0 0 = 0 := by
    rw [anchor_dist]
    norm_num
  refine ⟨by rw [h0]; norm_num, by rw [h0]; norm_num, ?_⟩
  simp only [solve_kinematics]
  rw [h0, if_neg (by norm_num), if_pos (by norm_num)]

/-- Claim C1 (amended): for every target whose anchor distance `AC`
satisfies `|L1-L2| ≤ AC ≤ L1+L2` and additionally `0 < AC` (excluding the
target-at-anchor case, where the code divides by zero), with positive link
lengths, `solve_kinematics` returns a pair of joint angles in degrees whose
forward kinematics (elbow at angle `alpha` along `L1` from the anchor, pen
at elbow bend `beta` along `L2`) reproduces the target exactly in real
arithmetic. -/
theorem C1_roundtrip_amended (tx ty ox oy L1 L2 : ℝ)
    (hL1 : 0 < L1) (hL2 : 0 < L2)
    (hlo : |L1 - L2| ≤ anchor_dist tx ty ox oy)
    (hhi : anchor_dist tx ty ox oy ≤ L1 + L2)
    (hpos : 0 < anchor_dist tx ty ox oy) :
    ∃ a b : ℝ, solve_kinematics tx ty ox oy L1 L2 = .ok (a, b) ∧
      fwd_kinematics ox oy L1 L2 a b = (tx, ty) :=
  ⟨_, _, solve_kinematics_ok tx ty ox oy L1 L2 hL1 hL2 hlo hhi hpos,
   fwd_round_trip tx ty ox oy L1 L2 hL1 hL2 hlo hhi hpos⟩

/-- Claim C1 witness: the amended round-trip law instantiated at the
boundary target `(3, 0)` with `L1 = 2`, `L2 = 1` (so `AC = 3 = L1 + L2`). -/
theorem C1_roundtrip_amended_witness :
    ((0:ℝ) < 2 ∧ (0:ℝ) < 1 ∧ |(2:ℝ) - 1| ≤ anchor_dist 3 0 0 0 ∧
     anchor_dist 3 0 0 0 ≤ 2 + 1 ∧ 0 < anchor_dist 3 0 0 0) ∧
    ∃ a b : ℝ, solve_kinematics 3 0 0 0 2 1 = .ok (a, b) ∧
      fwd_kinematics 0 0 2 1 a b = (3, 0) := by
  have h3 : anchor_dist (3:ℝ) 0 0 0 = 3 := by
    rw [anchor_dist, show ((3:ℝ) - 0) * ((3:ℝ) - 0) + ((0:ℝ) - 0) * ((0:ℝ) - 0) = 3 ^ 2 by
          norm_num,
        Real.sqrt_sq (by norm_num : (0:ℝ) ≤ 3)]
  exact ⟨⟨by norm_num, by norm_num, by rw [h3]; norm_num, by rw [h3]; norm_num,
      by rw [h3]; norm_num⟩,
    C1_roundtrip_amended 3 0 0 0 2 1 (by norm_num) (by norm_num) (by rw [h3]; norm_num)
      (by rw [h3]; norm_num) (by rw [h3]; norm_num)⟩

/-- Claim C2 (counterexample to the claim as stated): with `L1 = L2 = 1`
and the target at the anchor, `AC = 0` lies in the closed annulus, yet
`solve_kinematics` fails with `ZeroDivisionError` rather than evaluating
totally to a value; moreover the code contains no clamping of the `acos`
arguments. -/
theorem C2_totality_counterexample :
    |(1:ℝ) - 1| ≤ anchor_dist 0 0 0 0 ∧ anchor_dist 0 0 0 0 ≤ 1 + 1 ∧
    solve_kinematics 0 0 0 0 1 1 = PyResult.zeroDivisionError := by
  have h0 : anchor_dist (0:ℝ) 0 0 0 = 0 := by
    rw [anchor_dist]
    norm_num
  refine ⟨by rw [h0]; norm_num, by rw [h0]; norm_num, ?_⟩
  simp only [solve_kinematics]
  rw [h0, if_neg (by norm_num), if_pos (by norm_num)]

/-- Claim C2 (amended): for every target whose anchor distance `AC`
satisfies `|L1-L2| ≤ AC ≤ L1+L2` and `0 < AC`, with positive link lengths,
`solve_kinematics` evaluates totally and returns a value: in exact real
arithmetic both `acos` arguments already lie in `[-1, 1]` (the code
performs no clamping, and none is needed over the reals, including at
`AC = L1+L2` and `AC = |L1-L2|` exactly), and no division fails since
`2·L1·AC > 0` and `2·L1·L2 > 0`. -/
theorem C2_totality_amended (tx ty ox oy L1 L2 : ℝ)
    (hL1 : 0 < L1) (hL2 : 0 < L2)
    (hlo : |L1 - L2| ≤ anchor_dist tx ty ox oy)
    (hhi : anchor_dist tx ty ox oy ≤ L1 + L2)
    (hpos : 0 < anchor_dist tx ty ox oy) :
    ∃ a b : ℝ, solve_kinematics tx ty ox oy L1 L2 = .ok (a, b) :=
  ⟨_, _, solve_kinematics_ok tx ty ox oy L1 L2 hL1 hL2 hlo hhi hpos⟩

/-- Claim C2 witness: totality at the boundary target `(0, 4)` with
`L1 = 3`, `L2 = 1` (so `AC = 4 = L1 + L2`). -/
theorem C2_totality_amended_witness :
    ((0:ℝ) < 3 ∧ (0:ℝ) < 1 ∧ |(3:ℝ) - 1| ≤ anchor_dist 0 4 0 0 ∧
     anchor_dist 0 4 0 0 ≤ 3 + 1 ∧ 0 < anchor_dist 0 4 0 0) ∧
    ∃ a b : ℝ, solve_kinematics 0 4 0 0 3 1 = .ok (a, b) := by
  have h4 : anchor_dist (0:ℝ) 4 0 0 = 4 := by
    rw [anchor_dist, show ((0:ℝ) - 0) * ((0:ℝ) - 0) + ((4:ℝ) - 0) * ((4:ℝ) - 0) = 4 ^ 2 by
          norm_num,
        Real.sqrt_sq (by norm_num : (0:ℝ) ≤ 4)]
  exact ⟨⟨by norm_num, by norm_num, by rw [h4]; norm_num, by rw [h4]; norm_num,
      by rw [h4]; norm_num⟩,
    C2_totality_amended 0 4 0 0 3 1 (by norm_num) (by norm_num) (by rw [h4]; norm_num)
      (by rw [h4]; norm_num) (by rw [h4]; norm_num)⟩

/-- Claim C3 (code bug, evaluated at the failing input): on the calibration
table sampled at `20, 30, …, 180`, the query `angle = 25` lies strictly
inside the sampled range with bracketing keys `20` and `30` present, yet
`send_compensated_angle` raises `KeyError` (returns `none`): it computes
`x0 = 25 // 10 + 10 = 12`, which is not a table key, instead of the
bracketing key `20 = 25 // 10 * 10`. -/
theorem C3_linear_interpolation_bug :
    send_compensated_angle calibTable 25 = none ∧
    findKey calibTable 20 = some 20 ∧ findKey calibTable 30 = some 30 := by
  refine ⟨?_, ?_, ?_⟩
  · norm_num [send_compensated_angle, calibTable, List.range_succ, findKey]
  · norm_num [calibTable, List.range_succ, findKey]
  · norm_num [calibTable, List.range_succ, findKey]

/-- Claim C4 (counterexample to the claim as stated): the grid corner
`(5, 5)` on the maximal-x/maximal-y edge of the example grid stores
`(20, 20)`, yet `get_angles` returns `none` for it, because the containing
cell `[5,10] × [5,10]` lacks its other three corners. -/
theorem C4_corner_counterexample :
    findEntry specGrid (5, 5) = some (20, 20) ∧ get_angles 5 specGrid 5 5 = none := by
  constructor
  · rfl
  · norm_num [get_angles, specGrid, findEntry]

/-- Claim C4 (amended): for every stored grid corner `(i·g, j·g)` whose
containing cell has all four corners present in the mapping (which excludes
corners on the maximal-x and maximal-y edges of the calibrated region),
`get_angles` returns that corner's stored joint-angle pair exactly. -/
theorem C4_corner_exact_amended (g : ℚ) (data : List ((ℚ × ℚ) × (ℚ × ℚ))) (i j : ℤ)
    (q q10 q01 q11 : ℚ × ℚ) (hg : 0 < g)
    (h00 : findEntry data ((i : ℚ) * g, (j : ℚ) * g) = some q)
    (h10 : findEntry data ((i : ℚ) * g + g, (j : ℚ) * g) = some q10)
    (h01 : findEntry data ((i : ℚ) * g, (j : ℚ) * g + g) = some q01)
    (h11 : findEntry data ((i : ℚ) * g + g, (j : ℚ) * g + g) = some q11) :
    get_angles g data ((i : ℚ) * g) ((j : ℚ) * g) = some q := by
  have hd : data ≠ [] := by
    intro hnil
    rw [hnil] at h00
    simp [findEntry] at h00
  have hfi : (⌊((i : ℚ) * g) / g⌋ : ℤ) = i := by
    rw [mul_div_cancel_right₀ _ (ne_of_gt hg), Int.floor_intCast]
  have hfj : (⌊((j : ℚ) * g) / g⌋ : ℤ) = j := by
    rw [mul_div_cancel_right₀ _ (ne_of_gt hg), Int.floor_intCast]
  simp [get_angles, hd, hfi, hfj, h00, h10, h01, h11]

/-- Claim C4 witness: the amended exact-corner law at the interior corner
`(0, 0)` of the example grid, whose cell corners are all present. -/
theorem C4_corner_exact_amended_witness :
    (0 : ℚ) < 5 ∧
    get_angles 5 specGrid (((0 : ℤ) : ℚ) * 5) (((0 : ℤ) : ℚ) * 5) = some (10, 10) :=
  ⟨by norm_num,
   C4_corner_exact_amended 5 specGrid 0 0 (10, 10) (20, 10) (10, 20) (20, 20) (by norm_num)
     (by norm_num [findEntry, specGrid]) (by norm_num [findEntry, specGrid])
     (by norm_num [findEntry, specGrid]) (by norm_num [findEntry, specGrid])⟩

/-- Claim C5: one velocity-limiter step never moves farther than the step
bound from the current position; it returns exactly the target whenever the
target is within the bound; and when the current position already equals
the target it returns it unchanged (no division by zero). -/
theorem C5_limiter_step_bound (cx cy tx ty m : ℝ) (hm : 0 ≤ m) :
    planar_dist (limiter_step cx cy tx ty m).1 (limiter_step cx cy tx ty m).2 cx cy ≤ m ∧
    (planar_dist cx cy tx ty ≤ m → limiter_step cx cy tx ty m = (tx, ty)) ∧
    limiter_step cx cy cx cy m = (cx, cy) := by
  have hnn : (0:ℝ) ≤ (tx - cx) ^ 2 + (ty - cy) ^ 2 := by positivity
  have hself : limiter_step cx cy cx cy m = (cx, cy) := by
    simp [limiter_step]
  have hPD : planar_dist cx cy tx ty = Real.sqrt ((tx - cx) ^ 2 + (ty - cy) ^ 2) := by
    rw [planar_dist, show (cx - tx) ^ 2 + (cy - ty) ^ 2 = (tx - cx) ^ 2 + (ty - cy) ^ 2 by ring]
  set D := Real.sqrt ((tx - cx) ^ 2 + (ty - cy) ^ 2) with hDdef
  have hDnn : 0 ≤ D := Real.sqrt_nonneg _
  have hD2 : D ^ 2 = (tx - cx) ^ 2 + (ty - cy) ^ 2 := Real.sq_sqrt hnn
  have hstep : ∀ h : ¬ D = 0, limiter_step cx cy tx ty m =
      (cx + (tx - cx) / D * min m D, cy + (ty - cy) / D * min m D) := by
    intro h
    simp only [limiter_step]
    rw [← hDdef, if_neg h]
  refine ⟨?_, ?_, hself⟩
  · by_cases hD : D = 0
    · have hstep0 : limiter_step cx cy tx ty m = (cx, cy) := by
        simp only [limiter_step]
        rw [← hDdef, if_pos hD]
        simp
      rw [hstep0]
      simpa [planar_dist] using hm
    · have hsnn : 0 ≤ min m D := le_min hm hDnn
      rw [hstep hD]
      have harg : (cx + (tx - cx) / D * min m D - cx) ^ 2 +
          (cy + (ty - cy) / D * min m D - cy) ^ 2 = (min m D) ^ 2 := by
        have hexp : (cx + (tx - cx) / D * min m D - cx) ^ 2 +
            (cy + (ty - cy) / D * min m D - cy) ^ 2 =
            ((tx - cx) ^ 2 + (ty - cy) ^ 2) * (min m D) ^ 2 / D ^ 2 := by
          ring
        rw [hexp, ← hD2, mul_div_cancel_left₀ _ (pow_ne_zero 2 hD)]
      rw [planar_dist, harg, Real.sqrt_sq hsnn]
      exact min_le_left _ _
  · intro hclose
    by_cases hD : D = 0
    · have hle : (tx - cx) ^ 2 + (ty - cy) ^ 2 ≤ 0 := Real.sqrt_eq_zero'.mp hD
      have h1 : tx = cx := by nlinarith [sq_nonneg (tx - cx), sq_nonneg (ty - cy)]
      have h2 : ty = cy := by nlinarith [sq_nonneg (tx - cx), sq_nonneg (ty - cy)]
      rw [h1, h2]
      exact hself
    · have hDle : D ≤ m := by rw [← hPD]; exact hclose
      rw [hstep hD, min_eq_right hDle, div_mul_cancel₀ _ hD, div_mul_cancel₀ _ hD]
      simp only [Prod.mk.injEq]
      constructor <;> ring

/-- Claim C5 witness: the limiter-step bounds instantiated at the origin
with target `(3, 4)` and step bound `1`. -/
theorem C5_limiter_step_bound_witness :
    (0:ℝ) ≤ 1 ∧
    (planar_dist (limiter_step 0 0 3 4 1).1 (limiter_step 0 0 3 4 1).2 0 0 ≤ 1 ∧
     (planar_dist 0 0 3 4 ≤ 1 → limiter_step 0 0 3 4 1 = (3, 4)) ∧
     limiter_step 0 0 0 0 1 = (0, 0)) :=
  ⟨by norm_num, C5_limiter_step_bound 0 0 3 4 1 (by norm_num)⟩

/-- Claim C6: whenever the anchor distance is strictly greater than
`L1 + L2` or strictly less than `|L1 - L2|`, `solve_kinematics` returns
`None` (the `Unreachable` outcome) and never an angle pair. -/
theorem C6_unreachable (tx ty ox oy L1 L2 : ℝ)
    (h : anchor_dist tx ty ox oy > L1 + L2 ∨ anchor_dist tx ty ox oy < |L1 - L2|) :
    solve_kinematics tx ty ox oy L1 L2 = .retNone := by
  simp only [solve_kinematics]
  rw [if_pos h]

/-- Claim C6 witness: the target `(400, 0)` with `L1 = L2 = 155` lies
outside the outer workspace radius `310`, and the solver returns `None`. -/
theorem C6_unreachable_witness :
    (anchor_dist 400 0 0 0 > 155 + 155 ∨ anchor_dist 400 0 0 0 < |155 - 155|) ∧
    solve_kinematics 400 0 0 0 155 155 = .retNone := by
  have h400 : anchor_dist (400 : ℝ) 0 0 0 = 400 := by
    rw [anchor_dist,
        show ((400:ℝ) - 0) * ((400:ℝ) - 0) + ((0:ℝ) - 0) * ((0:ℝ) - 0) = 400 ^ 2 by norm_num,
        Real.sqrt_sq (by norm_num : (0:ℝ) ≤ 400)]
  have hcase : anchor_dist (400:ℝ) 0 0 0 > 155 + 155 ∨
      anchor_dist (400:ℝ) 0 0 0 < |155 - 155| := by
    left
    rw [h400]
    norm_num
  exact ⟨hcase, C6_unreachable 400 0 0 0 155 155 hcase⟩

/-- Claim C7: whenever any of the four corner keys of the grid cell
containing `(x, y)` is absent from the calibration mapping, `get_angles`
returns `none` (the `OutOfCalibratedRange` outcome), with no fallback. -/
theorem C7_missing_corner (g : ℚ) (data : List ((ℚ × ℚ) × (ℚ × ℚ))) (x y : ℚ)
    (h : findEntry data ((⌊x / g⌋ : ℤ) * g, (⌊y / g⌋ : ℤ) * g) = none ∨
         findEntry data ((⌊x / g⌋ : ℤ) * g + g, (⌊y / g⌋ : ℤ) * g) = none ∨
         findEntry data ((⌊x / g⌋ : ℤ) * g, (⌊y / g⌋ : ℤ) * g + g) = none ∨
         findEntry data ((⌊x / g⌋ : ℤ) * g + g, (⌊y / g⌋ : ℤ) * g + g) = none) :
    get_angles g data x y = none := by
  by_cases hd : data = []
  · simp [get_angles, hd]
  · cases e00 : findEntry data ((⌊x / g⌋ : ℤ) * g, (⌊y / g⌋ : ℤ) * g) <;>
    cases e10 : findEntry data ((⌊x / g⌋ : ℤ) * g + g, (⌊y / g⌋ : ℤ) * g) <;>
    cases e01 : findEntry data ((⌊x / g⌋ : ℤ) * g, (⌊y / g⌋ : ℤ) * g + g) <;>
    cases e11 : findEntry data ((⌊x / g⌋ : ℤ) * g + g, (⌊y / g⌋ : ℤ) * g + g) <;>
    simp_all [get_angles]

/-- Claim C7 witness: on the example four-point grid with `grid_size = 5`,
the lookup at `(10, 10)` fails because the cell corner `(10, 10)` itself is
not a stored key. -/
theorem C7_missing_corner_witness :
    (findEntry specGrid ((⌊(10 : ℚ) / 5⌋ : ℤ) * 5, (⌊(10 : ℚ) / 5⌋ : ℤ) * 5) = none ∨
     findEntry specGrid ((⌊(10 : ℚ) / 5⌋ : ℤ) * 5 + 5, (⌊(10 : ℚ) / 5⌋ : ℤ) * 5) = none ∨
     findEntry specGrid ((⌊(10 : ℚ) / 5⌋ : ℤ) * 5, (⌊(10 : ℚ) / 5⌋ : ℤ) * 5 + 5) = none ∨
     findEntry specGrid ((⌊(10 : ℚ) / 5⌋ : ℤ) * 5 + 5, (⌊(10 : ℚ) / 5⌋ : ℤ) * 5 + 5) = none) ∧
    get_angles 5 specGrid 10 10 = none :=
  ⟨Or.inl (by norm_num [findEntry, specGrid]),
   C7_missing_corner 5 specGrid 10 10 (Or.inl (by norm_num [findEntry, specGrid]))⟩

/-- Claim C8: at the concrete input `L1 = L2 = 155`, anchor `(-50, 139.7)`,
target `(100, 180)`, the corrected two-argument `atan2` base angle differs
from the historical single-argument `asin` result: the `asin` value is
below `90°` while the `atan2` value exceeds `90°` (the target lies above
the anchor's vertical offset, where the single-argument form loses the
quadrant). -/
theorem C8_asin_atan2_differ :
    solve_kinematics_original 100 180 ≠ PyResult.ok (solve_kinematics_fixed 100 180) := by
  have hApos : (0:ℝ) < Real.sqrt 24124.09 := Real.sqrt_pos.mpr (by norm_num)
  have hAne : Real.sqrt (24124.09 : ℝ) ≠ 0 := ne_of_gt hApos
  have h150A : (150:ℝ) < Real.sqrt 24124.09 := by
    rw [Real.lt_sqrt (by norm_num : (0:ℝ) ≤ 150)]
    norm_num
  have hrlt : (150:ℝ) / Real.sqrt 24124.09 < 1 := (div_lt_one hApos).mpr h150A
  have hrnn : (0:ℝ) ≤ 150 / Real.sqrt 24124.09 := by positivity
  have hA : Real.sqrt (((100:ℝ) - 0 - -50) ^ 2 + ((180:ℝ) - 0 - 139.7) ^ 2) =
      Real.sqrt 24124.09 := by norm_num
  have horig : solve_kinematics_original 100 180 =
      .ok (degrees (Real.arcsin (150 / Real.sqrt 24124.09))) := by
    simp only [solve_kinematics_original]
    rw [hA]
    rw [if_neg hAne]
    rw [if_neg (by
      rw [show ((100:ℝ) - 0 + 50) = 150 by norm_num, abs_of_nonneg hrnn]
      exact not_lt.mpr hrlt.le)]
    norm_num
  have hfix : solve_kinematics_fixed 100 180 =
      degrees (-Real.arcsin (150 / Real.sqrt 24124.09) + Real.pi) := by
    simp only [solve_kinematics_fixed, atan2]
    rw [Complex.arg_of_re_neg_of_im_nonneg (by norm_num) (by norm_num)]
    have habs : Complex.abs ⟨139.7 - (180 - 0), 100 - 0 + 50⟩ = Real.sqrt 24124.09 := by
      rw [Complex.abs_apply, Complex.normSq_mk]
      norm_num
    rw [habs]
    simp only [Complex.neg_im]
    have hnd : (-((100:ℝ) - 0 + 50)) / Real.sqrt 24124.09 =
        -(150 / Real.sqrt 24124.09) := by
      rw [neg_div]
      norm_num
    rw [hnd, Real.arcsin_neg]
  rw [horig, hfix]
  have ht : Real.arcsin (150 / Real.sqrt 24124.09) < Real.pi / 2 :=
    Real.arcsin_lt_pi_div_two.mpr hrlt
  have hne : degrees (Real.arcsin (150 / Real.sqrt 24124.09)) ≠
      degrees (-Real.arcsin (150 / Real.sqrt 24124.09) + Real.pi) := by
    intro heq
    have h2 : Real.arcsin (150 / Real.sqrt 24124.09) =
        -Real.arcsin (150 / Real.sqrt 24124.09) + Real.pi :=
      mul_right_cancel₀ (div_ne_zero (by norm_num) Real.pi_ne_zero) heq
    linarith
  simp only [ne_eq, PyResult.ok.injEq]
  exact hne

/-- Claim C9: for normalized inputs in `[0, 1]²` (where the defensive
clamp is the identity), the coordinate mapper returns
`board_x = x·paper_width − paper_width/2 + x_offset` and
`board_y = y·paper_height + y_base_offset + y_offset`, with the paper
dimensions and offsets the fixed configuration constants of
`src/main.clean.py`. -/
theorem C9_coordinate_mapper (x y : ℚ)
    (hx0 : 0 ≤ x) (hx1 : x ≤ 1) (hy0 : 0 ≤ y) (hy1 : y ≤ 1) :
    convert_board_coordinates x y =
      (x * PAPER_WIDTH - PAPER_WIDTH / 2 + X_OFFSET,
       y * PAPER_HEIGHT + Y_BASE_OFFSET + Y_OFFSET) := by
  simp [convert_board_coordinates, X_OFFSET, Y_OFFSET, Y_BASE_OFFSET,
        min_eq_right hx1, max_eq_right hx0, min_eq_right hy1, max_eq_right hy0]

/-- Claim C9 witness: the mapping law at the center input `(1/2, 1/2)`. -/
theorem C9_coordinate_mapper_witness :
    (0 : ℚ) ≤ 1/2 ∧ (1/2 : ℚ) ≤ 1 ∧
    convert_board_coordinates (1/2) (1/2) =
      ((1/2) * PAPER_WIDTH - PAPER_WIDTH / 2 + X_OFFSET,
       (1/2) * PAPER_HEIGHT + Y_BASE_OFFSET + Y_OFFSET) :=
  ⟨by norm_num, by norm_num,
   C9_coordinate_mapper (1/2) (1/2) (by norm_num) (by norm_num) (by norm_num) (by norm_num)⟩

/-- Claim C10: on an empty calibration mapping, `get_angles` returns `none`
immediately for every query point, performing no cell computation. -/
theorem C10_empty_mapping (grid_size x y : ℚ) : get_angles grid_size [] x y = none := by
  simp [get_angles]

end PenPlotter
